import Mathlib

/-!
Verification of the SeleniumBrowser repository's element-lookup descriptor
model and load-synchronization protocol.

The development is a shallow embedding of the Python sources:
* `GetElementProps` (src/Selenium_Browser/GetElementProps.py)
* `XPathLookupProps` (src/Selenium_Browser/XPathLookupProps.py)
* `SeleniumBrowser` (src/Selenium_Browser/SeleniumBrowser.py)

Python `None`-able strings become `Option String`; dynamic attribute
access that can raise `AttributeError` is modelled by an `Option` field
read through an `Except`; fallible Python code returns `Except PyErr`.
The underlying selenium driver is abstracted as a function from a search
root, a strategy kind and a search value to either a list of element
handles or a `NoSuchElementException`.
-/

/-- Strategy kinds, the selenium `By` constants used by the sources:
`By.ID`, `By.CLASS_NAME`, `By.TAG_NAME`, `By.XPATH`. -/
inductive By where
  | id
  | className
  | tagName
  | xpath
deriving DecidableEq

/-- An opaque DOM element handle: its text content and its attributes
(selenium's `get_attribute` returns the value or Python `None`, modelled
by association-list lookup). -/
structure Elem where
  text : String
  attrs : List (String × String)
deriving DecidableEq

/-- Runtime errors that modelled Python code can raise. -/
inductive PyErr where
  | typeError (msg : String)
  | attributeError (attr : String)
  | arityMismatch
deriving DecidableEq

/-- The one driver failure that `get_html_elements_helper` catches:
selenium's `NoSuchElementException`. -/
inductive FindErr where
  | noSuchElement
deriving DecidableEq

/-- The underlying driver's find capability: given an optional search root
(`element` in the source), a strategy kind and a search value, return the
matched handles in driver-reported order, or raise `NoSuchElementException`.
Corresponds to `find_elements_by_id` / `_class_name` / `_tag_name` /
`_xpath` on a `WebDriver` or `WebElement`. -/
def Driver : Type := Option Elem → By → String → Except FindErr (List Elem)

/-- `GetElementProps` from src/Selenium_Browser/GetElementProps.py.
Python optional-string fields are `Option String`; the constructor
defaults every selector to `None` and every flag to `False`.
The `inner_elements` dict is carried by the Python class but never read
by any of the modelled operations, so it is omitted here. -/
structure GetElementProps where
  by_class : Option String
  by_id : Option String
  by_tag : Option String
  by_xpath : Option String
  prefer_text : Bool
  grab_attrib : Option String
  ignore_list : Bool
  force_list : Bool
deriving DecidableEq

/-- `GetElementProps.__init__` with every argument left at its default. -/
def GetElementProps.defaults : GetElementProps :=
  ⟨none, none, none, none, false, none, false, false⟩

/-- `GetElementProps.get_ref` (src/Selenium_Browser/GetElementProps.py,
lines 73-81): return `by_id`, else `by_class`, else `by_tag`, else
`by_xpath` (which may be Python `None`). -/
def GetElementProps.get_ref (p : GetElementProps) : Option String :=
  match p.by_id with
  | some v => some v
  | none =>
    match p.by_class with
    | some v => some v
    | none =>
      match p.by_tag with
      | some v => some v
      | none => p.by_xpath

/-- Modelled from the spec: the `Errors` record produced by
`error_codes.selenium_err({...})`. The `Errors` class and `ErrorCodes`
live in the `utils` submodule, which is not under src/; per the spec a
failure descriptor carries "a human-readable identifier and message
referencing the search key and elapsed delay", and every call site in
src/ populates the keys `input_key`, `uid` and `message`. -/
structure Errors where
  input_key : String
  uid : String
  message : String
deriving DecidableEq

/-- `XPathLookupProps` from src/Selenium_Browser/XPathLookupProps.py.
`search_param` can be assigned Python `None` (via `update_from_props` on
an empty descriptor), hence `Option String`.  `check_absence` models the
*dynamic* Python attribute of that name: it is read by
`SeleniumBrowser.browse_to_url` (line 336) but never assigned anywhere
in the repository — `none` means the attribute is absent and reading it
raises `AttributeError`. -/
structure XPathLookupProps where
  html_element_type : By
  search_param : Option String
  delay : Nat
  done_message : Option String
  error : Option Errors
  check_absence : Option Bool
deriving DecidableEq

/-- `XPathLookupProps.update_from_props`
(src/Selenium_Browser/XPathLookupProps.py, lines 65-75): pick the
strategy kind by the first set selector (id, class, tag, else xpath) and
set `search_param` to `props.get_ref()`. -/
def XPathLookupProps.update_from_props (x : XPathLookupProps)
    (p : GetElementProps) : XPathLookupProps :=
  let kind : By :=
    match p.by_id with
    | some _ => By.id
    | none =>
      match p.by_class with
      | some _ => By.className
      | none =>
        match p.by_tag with
        | some _ => By.tagName
        | none => By.xpath
  { x with html_element_type := kind, search_param := p.get_ref }

/-- `XPathLookupProps.__init__` (lines 34-53): store the five fields and,
when a `GetElementProps` is supplied, run `update_from_props`.  The
dynamic `check_absence` attribute is never created by the constructor. -/
def XPathLookupProps.init (het : By) (sp : Option String) (delay : Nat)
    (dm : Option String) (err : Option Errors)
    (props : Option GetElementProps) : XPathLookupProps :=
  let x : XPathLookupProps :=
    { html_element_type := het, search_param := sp, delay := delay,
      done_message := dm, error := err, check_absence := none }
  match props with
  | some p => x.update_from_props p
  | none => x

/-- `XPathLookupProps.__init__` with every argument at its default:
`By.XPATH`, `'//'`, delay 30, done message `''`, no error. -/
def XPathLookupProps.initDefaults : XPathLookupProps :=
  XPathLookupProps.init By.xpath (some "//") 30 (some "") none none

/-- `XPathLookupProps.any_element_check` (lines 61-63). -/
def XPathLookupProps.any_element_check : XPathLookupProps :=
  XPathLookupProps.init By.xpath (some "//*") 30 (some "") none none

/-- The empty descriptor: `GetElementProps()` with no selection strategy
set, used to exercise translation of a strategy-free descriptor. -/
def emptyProps : GetElementProps := GetElementProps.defaults

/-- C2 counterexample: the claim says a descriptor with no strategy set
makes translation "fail with InvalidDescriptor at translation time".  In
the code neither `get_ref` nor `update_from_props` has any failure path:
on the empty descriptor `get_ref` returns Python `None` and
`update_from_props` completes normally, yielding the path-expression
kind with an absent search value. -/
theorem no_strategy_translation_succeeds_counterexample :
    emptyProps.get_ref = none ∧
    XPathLookupProps.initDefaults.update_from_props emptyProps =
      { html_element_type := By.xpath, search_param := none, delay := 30,
        done_message := some "", error := none, check_absence := none } := by
  constructor
  · rfl
  · rfl

/-- C2 (amended): for every descriptor with none of the four selection
strategies set, translation does not fail: it returns the
path-expression kind with an absent (Python `None`) search value. -/
theorem no_strategy_translates_to_xpath_none
    (x : XPathLookupProps) (p : GetElementProps)
    (h1 : p.by_id = none) (h2 : p.by_class = none)
    (h3 : p.by_tag = none) (h4 : p.by_xpath = none) :
    p.get_ref = none ∧
    x.update_from_props p =
      { x with html_element_type := By.xpath, search_param := none } := by
  have hr : p.get_ref = none := by
    simp [GetElementProps.get_ref, h1, h2, h3, h4]
  refine ⟨hr, ?_⟩
  simp [XPathLookupProps.update_from_props, h1, h2, h3, hr]

/-- C2 witness: instantiates the amended theorem on the concrete empty
descriptor. -/
theorem no_strategy_translates_to_xpath_none_witness :
    emptyProps.get_ref = none ∧
    XPathLookupProps.initDefaults.update_from_props emptyProps =
      { XPathLookupProps.initDefaults with
          html_element_type := By.xpath, search_param := none } :=
  no_strategy_translates_to_xpath_none XPathLookupProps.initDefaults
    emptyProps rfl rfl rfl rfl

/-- C4: translation of a descriptor with a set strategy returns that
strategy's kind and search value, following the precedence order
identifier, then class, then tag, then path-expression: `by_id` wins
unconditionally; `by_class` when `by_id` is unset; `by_tag` when both
are unset; `by_xpath` when all three are unset.  In particular, for a
descriptor with exactly one strategy set, translation returns that
strategy's kind and value. -/
theorem translate_single_strategy_and_precedence
    (x : XPathLookupProps) (p : GetElementProps) :
    (∀ v, p.by_id = some v →
      x.update_from_props p =
        { x with html_element_type := By.id, search_param := some v }) ∧
    (∀ v, p.by_id = none → p.by_class = some v →
      x.update_from_props p =
        { x with html_element_type := By.className, search_param := some v }) ∧
    (∀ v, p.by_id = none → p.by_class = none → p.by_tag = some v →
      x.update_from_props p =
        { x with html_element_type := By.tagName, search_param := some v }) ∧
    (∀ v, p.by_id = none → p.by_class = none → p.by_tag = none →
      p.by_xpath = some v →
      x.update_from_props p =
        { x with html_element_type := By.xpath, search_param := some v }) := by
  refine ⟨?_, ?_, ?_, ?_⟩
  · intro v h
    simp [XPathLookupProps.update_from_props, GetElementProps.get_ref, h]
  · intro v h1 h2
    simp [XPathLookupProps.update_from_props, GetElementProps.get_ref, h1, h2]
  · intro v h1 h2 h3
    simp [XPathLookupProps.update_from_props, GetElementProps.get_ref,
      h1, h2, h3]
  · intro v h1 h2 h3 h4
    simp [XPathLookupProps.update_from_props, GetElementProps.get_ref,
      h1, h2, h3, h4]

/-- C4 witness: a descriptor with exactly the class strategy set
translates to the class kind with that value, even though translation
first probes the identifier strategy. -/
theorem translate_single_strategy_and_precedence_witness :
    XPathLookupProps.initDefaults.update_from_props
      { GetElementProps.defaults with by_class := some "btn" } =
    { XPathLookupProps.initDefaults with
        html_element_type := By.className, search_param := some "btn" } :=
  (translate_single_strategy_and_precedence XPathLookupProps.initDefaults
    { GetElementProps.defaults with by_class := some "btn" }).2.1
    "btn" rfl rfl

/-- A matched item after optional attribute extraction: an element
handle, an attribute/text string, or Python `None` (attribute absent). -/
inductive Item where
  | handle (e : Elem)
  | strVal (s : String)
  | pyNone
deriving DecidableEq

/-- The `WebLookup` union returned by `get_html_elements_helper`:
Python `None`, a bare scalar, or a list. -/
inductive WebLookup where
  | noneV
  | single (i : Item)
  | listV (l : List Item)
deriving DecidableEq

/-- Strategy dispatch of `get_html_elements_helper`
(src/Selenium_Browser/SeleniumBrowser.py, lines 481-489): issue exactly
one find call for the first set selector; with no selector set, `output`
stays the empty list. -/
def select_find (p : GetElementProps) (root : Option Elem) (run : Driver) :
    Except FindErr (List Elem) :=
  match p.by_id with
  | some v => run root By.id v
  | none =>
    match p.by_class with
    | some v => run root By.className v
    | none =>
      match p.by_tag with
      | some v => run root By.tagName v
      | none =>
        match p.by_xpath with
        | some v => run root By.xpath v
        | none => Except.ok []

/-- One matched handle as it appears in `output` after the
`grab_attrib` step (line 491-492): with `grab_attrib` set the handle is
replaced by `x.get_attribute(attr)` — the attribute string or Python
`None`; otherwise the raw handle. -/
def to_item (p : GetElementProps) (e : Elem) : Item :=
  match p.grab_attrib with
  | some a =>
    match e.attrs.lookup a with
    | some s => Item.strVal s
    | none => Item.pyNone
  | none => Item.handle e

/-- The `grab_attrib` mapping over the whole `output` list
(src/Selenium_Browser/SeleniumBrowser.py, lines 491-492). -/
def apply_attrib (p : GetElementProps) (output : List Elem) : List Item :=
  match p.grab_attrib with
  | some _ => output.map (to_item p)
  | none => output.map Item.handle

/-- Shape normalization of `get_html_elements_helper` (lines 494-501):
empty list to `None`; a singleton to the list itself under `force_list`
and to the bare item otherwise; several matches to the first item under
`ignore_list` and to the whole list otherwise. -/
def shape (p : GetElementProps) (output : List Item) : WebLookup :=
  match output with
  | [] => WebLookup.noneV
  | [x] => if p.force_list then WebLookup.listV [x] else WebLookup.single x
  | x :: _ :: _ =>
    if p.ignore_list then WebLookup.single x else WebLookup.listV output

/-- `SeleniumBrowser.get_html_elements_helper`
(src/Selenium_Browser/SeleniumBrowser.py, lines 470-503): dispatch the
find call, apply attribute extraction, normalize the shape; a
`NoSuchElementException` raised inside the `try` block is caught and
becomes Python `None`. -/
def get_html_elements_helper (p : GetElementProps) (root : Option Elem)
    (run : Driver) : WebLookup :=
  match select_find p root run with
  | Except.ok output => shape p (apply_attrib p output)
  | Except.error FindErr.noSuchElement => WebLookup.noneV

/-- Python `len()` applied to a `WebLookup` value, as done by
`get_html_elements` (line 450): lists and strings have a length; `None`
and a bare element handle raise `TypeError`. -/
def py_len : WebLookup → Except PyErr Nat
  | WebLookup.noneV => Except.error (PyErr.typeError "NoneType has no len")
  | WebLookup.single (Item.strVal s) => Except.ok s.length
  | WebLookup.single (Item.handle _) =>
      Except.error (PyErr.typeError "WebElement has no len")
  | WebLookup.single Item.pyNone =>
      Except.error (PyErr.typeError "NoneType has no len")
  | WebLookup.listV l => Except.ok l.length

/-- `SeleniumBrowser.get_elements_text` applied to one stored item
(lines 459-468, reached from the loop in `get_html_elements` with a
non-list, non-None argument): an element handle yields its `.text`, a
string has no `.text` attribute and raises `AttributeError`, Python
`None` is returned unchanged. -/
def get_elements_text_item : Item → Except PyErr Item
  | Item.handle e => Except.ok (Item.strVal e.text)
  | Item.strVal _ => Except.error (PyErr.attributeError "text")
  | Item.pyNone => Except.ok Item.pyNone

/-- The index loop of `get_html_elements` (lines 450-453): when
`prefer_text` is set, each indexed item is replaced by
`get_elements_text` of itself.  Indexing a bare string yields its
characters, so a scalar string result with `prefer_text` raises
`AttributeError` on the first character (unless the string is empty and
the loop body never runs).  The `None` and bare-handle cases are
unreachable here because `py_len` has already raised. -/
def prefer_text_pass (p : GetElementProps) :
    WebLookup → Except PyErr WebLookup
  | WebLookup.listV l =>
    if p.prefer_text then
      (l.mapM get_elements_text_item).map WebLookup.listV
    else Except.ok (WebLookup.listV l)
  | WebLookup.single (Item.strVal s) =>
    if p.prefer_text ∧ s.length ≠ 0 then
      Except.error (PyErr.attributeError "text")
    else Except.ok (WebLookup.single (Item.strVal s))
  | w => Except.ok w

/-- Modelled from the spec: `Arrays.delistify` belongs to the `utils`
submodule, which is not under src/.  The spec's shape normalization
(section 4.4, steps 1-4) is implemented in full by
`get_html_elements_helper` and the spec prescribes no further reshaping
of the result, so the final pass is modelled as the identity. -/
def delistify (w : WebLookup) : WebLookup := w

/-- `SeleniumBrowser.get_html_elements`
(src/Selenium_Browser/SeleniumBrowser.py, lines 448-454): call the
helper, run `range(len(elements))` — raising `TypeError` when the helper
produced `None` or a bare element handle — apply the `prefer_text`
replacement per index, and return `Arrays.delistify` of the result. -/
def get_html_elements (p : GetElementProps) (root : Option Elem)
    (run : Driver) : Except PyErr WebLookup := do
  let elements := get_html_elements_helper p root run
  let _ ← py_len elements
  let elements ← prefer_text_pass p elements
  Except.ok (delistify elements)

/-- apply_attrib maps `to_item` over the output whether or not an
attribute is requested. -/
theorem apply_attrib_eq_map (p : GetElementProps) (output : List Elem) :
    apply_attrib p output = output.map (to_item p) := by
  cases h : p.grab_attrib with
  | none =>
    simp only [apply_attrib, h]
    refine List.map_congr_left ?_
    intro e _
    simp [to_item, h]
  | some a => simp [apply_attrib, h]

/-- C1: the result shape of an element retrieval is determined by the
driver's match count and the descriptor flags.  Whenever the dispatched
find call reports the match list `ms`: zero matches yield `None`;
exactly one match yields the bare item unless `force_list` is set, in
which case the one-element list; more than one match with `ignore_list`
set yields the first match only; and more than one match otherwise
yields the full list in driver-reported order. -/
theorem retrieval_shape_by_match_count (p : GetElementProps)
    (root : Option Elem) (run : Driver) (ms : List Elem)
    (h : select_find p root run = Except.ok ms) :
    (ms = [] → get_html_elements_helper p root run = WebLookup.noneV) ∧
    (∀ m, ms = [m] →
      get_html_elements_helper p root run =
        (if p.force_list then WebLookup.listV [to_item p m]
         else WebLookup.single (to_item p m))) ∧
    (∀ m m2 rest, ms = m :: m2 :: rest →
      get_html_elements_helper p root run =
        (if p.ignore_list then WebLookup.single (to_item p m)
         else WebLookup.listV (ms.map (to_item p)))) := by
  refine ⟨?_, ?_, ?_⟩
  · intro hms
    subst hms
    simp [get_html_elements_helper, h, apply_attrib_eq_map, shape]
  · intro m hms
    subst hms
    simp [get_html_elements_helper, h, apply_attrib_eq_map, shape]
  · intro m m2 rest hms
    subst hms
    simp only [get_html_elements_helper, h, apply_attrib_eq_map,
      List.map_cons, shape]

/-- C1 witness: a by-id lookup whose driver reports two matches, with no
flags set, yields the full two-element list in driver order. -/
theorem retrieval_shape_by_match_count_witness :
    select_find { GetElementProps.defaults with by_id := some "x" } none
      (fun _ _ _ => Except.ok [⟨"t1", []⟩, ⟨"t2", []⟩]) =
      Except.ok [⟨"t1", []⟩, ⟨"t2", []⟩] ∧
    get_html_elements_helper
      { GetElementProps.defaults with by_id := some "x" } none
      (fun _ _ _ => Except.ok [⟨"t1", []⟩, ⟨"t2", []⟩]) =
      WebLookup.listV [Item.handle ⟨"t1", []⟩, Item.handle ⟨"t2", []⟩] := by
  refine ⟨rfl, ?_⟩
  have h := (retrieval_shape_by_match_count
    { GetElementProps.defaults with by_id := some "x" } none
    (fun _ _ _ => Except.ok [⟨"t1", []⟩, ⟨"t2", []⟩])
    [⟨"t1", []⟩, ⟨"t2", []⟩] rfl).2.2 ⟨"t1", []⟩ ⟨"t2", []⟩ [] rfl
  simpa [to_item] using h

/-- The concrete descriptor of end-to-end scenario figures: a by-id
lookup with all post-processing flags at their defaults. -/
def c5props : GetElementProps :=
  { GetElementProps.defaults with by_id := some "login" }

/-- A driver on whose page nothing matches. -/
def emptyPageDriver : Driver := fun _ _ _ => Except.ok []

/-- A driver whose find call raises `NoSuchElementException`. -/
def noSuchElementDriver : Driver := fun _ _ _ => Except.error FindErr.noSuchElement

/-- C5: `get_html_elements_helper` does catch the driver's not-found
failure and normalizes it (and a zero-match result) to `None` — but
`get_html_elements` then calls `len()` on that `None`, so the retrieval
raises `TypeError` instead of returning the none result: zero matches
make the full retrieval propagate an exception. -/
theorem zero_matches_retrieval_raises_bug :
    get_html_elements_helper c5props none emptyPageDriver =
      WebLookup.noneV ∧
    get_html_elements_helper c5props none noSuchElementDriver =
      WebLookup.noneV ∧
    get_html_elements c5props none emptyPageDriver =
      Except.error (PyErr.typeError "NoneType has no len") ∧
    get_html_elements c5props none noSuchElementDriver =
      Except.error (PyErr.typeError "NoneType has no len") ∧
    get_html_elements c5props none
      (fun _ _ _ => Except.ok [⟨"t1", []⟩]) =
      Except.error (PyErr.typeError "WebElement has no len") := by
  refine ⟨rfl, rfl, rfl, rfl, rfl⟩

/-- Python `str()` of an optional string: `None` prints as `"None"`
inside `'...'.format(...)`. -/
def pyStr : Option String → String
  | some s => s
  | none => "None"

/-- Events emitted through the logging collaborator: `logger.output`
(or `print`) and `logger.output_err`. -/
inductive LogEvent where
  | out (s : String)
  | errRep (e : Option Errors)
deriving DecidableEq

/-- The failure descriptor built by `check_presence_of_element`
(src/Selenium_Browser/SeleniumBrowser.py, lines 403-408) from the
current page title, the search key and the delay. -/
def mk_presence_error (title : String) (props : XPathLookupProps) : Errors :=
  { input_key := title,
    uid := "Element was not found - " ++ pyStr props.search_param,
    message := "The element with XPath " ++ pyStr props.search_param ++
      " at " ++ title ++ " could not be found after " ++
      toString props.delay ++ " seconds on the web page" }

/-- The failure descriptor built by `check_absence_of_element`
(lines 424-429). -/
def mk_absence_error (title : String) (props : XPathLookupProps) : Errors :=
  { input_key := title,
    uid := "Element was found - " ++ pyStr props.search_param,
    message := "The element with XPath " ++ pyStr props.search_param ++
      " at " ++ title ++ " was found after waiting " ++
      toString props.delay ++ " seconds on the web page" }

/-- The lazy population step of `check_presence_of_element`
(lines 402-408): construct and store the failure descriptor only when
`props.error is None`. -/
def populate_presence_error (props : XPathLookupProps) (title : String) :
    XPathLookupProps :=
  match props.error with
  | none => { props with error := some (mk_presence_error title props) }
  | some _ => props

/-- The lazy population step of `check_absence_of_element`
(lines 423-429). -/
def populate_absence_error (props : XPathLookupProps) (title : String) :
    XPathLookupProps :=
  match props.error with
  | none => { props with error := some (mk_absence_error title props) }
  | some _ => props

/-- The wait outcome of `WebDriverWait(browser, delay).until(...)`:
the readiness predicate is modelled by its truth value at each poll
tick; the wait succeeds when the predicate holds at some tick within the
delay and raises `TimeoutException` otherwise. -/
inductive WaitErr where
  | timeout
deriving DecidableEq

/-- Bounded polling of the readiness predicate at ticks 0..delay. -/
def webdriver_wait_until (pred : Nat → Bool) (delay : Nat) :
    Except WaitErr Unit :=
  if (List.range (delay + 1)).any pred then Except.ok ()
  else Except.error WaitErr.timeout

/-- `SeleniumBrowser.check_presence_helper`
(src/Selenium_Browser/SeleniumBrowser.py, lines 339-359): run the
bounded wait; on success emit the done message (the page-title-derived
default when it is the empty string, nothing when it is Python `None`);
on `TimeoutException` report `props.error` and return `False`.  The
returned pair is (result, emitted log events); the timeout is caught, so
the function is total — nothing is raised past this boundary. -/
def check_presence_helper (pred : Nat → Bool) (props : XPathLookupProps)
    (title : String) : Bool × List LogEvent :=
  match webdriver_wait_until pred props.delay with
  | Except.ok _ =>
    (true,
      match props.done_message with
      | some m => [LogEvent.out (if m = "" then title ++ " is ready" else m)]
      | none => [])
  | Except.error WaitErr.timeout => (false, [LogEvent.errRep props.error])

/-- `SeleniumBrowser.check_presence_of_element` (lines 394-411):
lazily populate the failure descriptor, then run the wait on the
presence predicate.  Returns (result, mutated props, log events). -/
def check_presence_of_element (props : XPathLookupProps) (title : String)
    (pred : Nat → Bool) : Bool × XPathLookupProps × List LogEvent :=
  let p := populate_presence_error props title
  let r := check_presence_helper pred p title
  (r.1, p, r.2)

/-- `SeleniumBrowser.check_absence_of_element` (lines 413-432):
same protocol against the invisibility predicate. -/
def check_absence_of_element (props : XPathLookupProps) (title : String)
    (pred : Nat → Bool) : Bool × XPathLookupProps × List LogEvent :=
  let p := populate_absence_error props title
  let r := check_presence_helper pred p title
  (r.1, p, r.2)

/-- C6: the failure descriptor of a `WaitSpecification` is populated at
most once.  A first evaluation always leaves the descriptor populated; a
later evaluation against the same instance — by the presence check or
the absence check, with any page title — returns the instance unchanged
instead of constructing a fresh descriptor; and on an instance whose
descriptor was never populated the first evaluation constructs exactly
the title/key/delay descriptor. -/
theorem failure_descriptor_populated_once (props : XPathLookupProps)
    (t1 t2 : String) :
    ((populate_presence_error props t1).error.isSome = true ∧
      (populate_absence_error props t1).error.isSome = true) ∧
    (populate_presence_error (populate_presence_error props t1) t2 =
        populate_presence_error props t1 ∧
      populate_absence_error (populate_presence_error props t1) t2 =
        populate_presence_error props t1 ∧
      populate_absence_error (populate_absence_error props t1) t2 =
        populate_absence_error props t1 ∧
      populate_presence_error (populate_absence_error props t1) t2 =
        populate_absence_error props t1) ∧
    (props.error = none →
      (populate_presence_error props t1).error =
          some (mk_presence_error t1 props) ∧
        (populate_absence_error props t1).error =
          some (mk_absence_error t1 props)) := by
  cases h : props.error with
  | none =>
    refine ⟨⟨?_, ?_⟩, ⟨?_, ?_, ?_, ?_⟩, ?_⟩ <;>
      simp [populate_presence_error, populate_absence_error,
        mk_presence_error, mk_absence_error, h]
  | some e =>
    refine ⟨⟨?_, ?_⟩, ⟨?_, ?_, ?_, ?_⟩, ?_⟩ <;>
      simp [populate_presence_error, populate_absence_error, h]

/-- C6 witness: on the default specification two consecutive presence
evaluations keep the identical descriptor, and the first evaluation
constructs the title-derived one. -/
theorem failure_descriptor_populated_once_witness :
    populate_presence_error
        (populate_presence_error XPathLookupProps.initDefaults "A") "B" =
      populate_presence_error XPathLookupProps.initDefaults "A" ∧
    (populate_presence_error XPathLookupProps.initDefaults "A").error =
      some (mk_presence_error "A" XPathLookupProps.initDefaults) := by
  have h := failure_descriptor_populated_once XPathLookupProps.initDefaults
    "A" "B"
  exact ⟨h.2.1.1, (h.2.2 rfl).1⟩

/-- C7: when the readiness predicate never becomes true within the
specification's delay, the presence check returns `False`, leaves the
failure descriptor populated, and its only emitted report is that
failure descriptor; the wait's `TimeoutException` is caught, never
raised past the boundary (the function is total by construction). -/
theorem wait_timeout_reports_descriptor_returns_false
    (props : XPathLookupProps) (title : String) (pred : Nat → Bool)
    (h : ∀ t, t ≤ props.delay → pred t = false) :
    (check_presence_of_element props title pred).1 = false ∧
    (check_presence_of_element props title pred).2.1.error.isSome = true ∧
    (check_presence_of_element props title pred).2.2 =
      [LogEvent.errRep
        (check_presence_of_element props title pred).2.1.error] := by
  have hwait : webdriver_wait_until pred props.delay =
      Except.error WaitErr.timeout := by
    unfold webdriver_wait_until
    have : (List.range (props.delay + 1)).any pred = false := by
      simp only [List.any_eq_false]
      intro t ht
      have := List.mem_range.mp ht
      simp [h t (Nat.lt_succ_iff.mp this)]
    simp [this]
  have hsome : (populate_presence_error props title).error.isSome = true := by
    cases h' : props.error <;> simp [populate_presence_error, h']
  have hdelay : (populate_presence_error props title).delay = props.delay := by
    cases h' : props.error <;> simp [populate_presence_error, h']
  refine ⟨?_, hsome, ?_⟩ <;>
    simp [check_presence_of_element, check_presence_helper, hdelay, hwait]

/-- C7 witness: a predicate that is never true against a delay-1
specification with search key `//a` — the check returns `False` and the
reported descriptor's message contains the search key and the literal
delay value 1. -/
theorem wait_timeout_reports_descriptor_returns_false_witness :
    (check_presence_of_element
        { XPathLookupProps.initDefaults with
            search_param := some "//a", delay := 1 } "Page"
        (fun _ => false)).1 = false ∧
    (check_presence_of_element
        { XPathLookupProps.initDefaults with
            search_param := some "//a", delay := 1 } "Page"
        (fun _ => false)).2.1.error =
      some { input_key := "Page", uid := "Element was not found - //a",
             message := "The element with XPath //a at Page could not be found after 1 seconds on the web page" } := by
  have h := wait_timeout_reports_descriptor_returns_false
    { XPathLookupProps.initDefaults with
        search_param := some "//a", delay := 1 } "Page"
    (fun _ => false) (fun _ _ => rfl)
  exact ⟨h.1, by rfl⟩

/-- `BrowseReq` (src/Selenium_Browser/SeleniumBrowser.py, lines 81-89):
a navigation request.  The caller-supplied zero-argument readiness
predicate is modelled by the boolean it returns (`none` = no predicate
given). -/
structure BrowseReq where
  url : String
  props : XPathLookupProps
  present_function : Option Bool

/-- `BrowseReq.__init__`: the props default to
`XPathLookupProps.any_element_check()`. -/
def BrowseReq.init (url : String) (props : Option XPathLookupProps)
    (pf : Option Bool) : BrowseReq :=
  { url := url, props := props.getD XPathLookupProps.any_element_check,
    present_function := pf }

/-- What the `try` block of `browse_to_url` (lines 317-319, the
`browser.get(url)` call and the frame descent) can raise:
a `WebDriverException` (transport-level failure) or any other
exception. -/
inductive NavExc where
  | webDriver (msg : String)
  | other (msg : String)
deriving DecidableEq

/-- The observable outcome of one `browse_to_url` call: the value it
returns or the exception it propagates, whether `restart_browser` was
invoked, and the emitted log/print events. -/
structure BrowseRun where
  retval : Except PyErr Bool
  restarted : Bool
  logs : List LogEvent

/-- Reading the dynamic `check_absence` attribute
(`props.check_absence`, src/Selenium_Browser/SeleniumBrowser.py,
line 336): Python raises `AttributeError` when the attribute was never
assigned on the instance. -/
def getattr_check_absence (props : XPathLookupProps) : Except PyErr Bool :=
  match props.check_absence with
  | some b => Except.ok b
  | none => Except.error (PyErr.attributeError "check_absence")

/-- `SeleniumBrowser.browse_to_url`
(src/Selenium_Browser/SeleniumBrowser.py, lines 297-336).  The outcome
of the `try` block (navigate plus frame descent) is supplied as `nav`.
On `WebDriverException` the browser session is restarted, the exception
is printed, and `False` is returned; on any other exception the default
error descriptor gets the exception text appended and is reported, and
`False` is returned.  On success: an explicit readiness predicate is
returned directly, otherwise `props.check_absence` selects the absence
or the presence check — that attribute read happens outside any `try`
block, so its `AttributeError` propagates to the caller. -/
def browse_to_url (req : BrowseReq) (nav : Except NavExc Unit)
    (title : String) (presPred absPred : Nat → Bool) : BrowseRun :=
  let default_error : Errors :=
    { input_key := req.url,
      uid := "Web Page Load Failed - " ++ req.url,
      message := "The page at " ++ req.url ++ " could not be loaded" }
  match nav with
  | Except.error (NavExc.webDriver m) =>
    { retval := Except.ok false, restarted := true, logs := [LogEvent.out m] }
  | Except.error (NavExc.other m) =>
    { retval := Except.ok false, restarted := false,
      logs := [LogEvent.errRep (some { default_error with
        message := default_error.message ++ "\n" ++ m ++ "\n" })] }
  | Except.ok _ =>
    match req.present_function with
    | some f => { retval := Except.ok f, restarted := false, logs := [] }
    | none =>
      match getattr_check_absence req.props with
      | Except.error e =>
        { retval := Except.error e, restarted := false, logs := [] }
      | Except.ok ca =>
        if ca then
          let r := check_absence_of_element req.props title absPred
          { retval := Except.ok r.1, restarted := false, logs := r.2.2 }
        else
          let r := check_presence_of_element req.props title presPred
          { retval := Except.ok r.1, restarted := false, logs := r.2.2 }

/-- C3: a navigation request with no explicit readiness predicate is
supposed to branch on the wait specification's `check_for_absence`
flag, defaulting to false — but `XPathLookupProps` never defines a
`check_absence` attribute, and nothing in the repository ever assigns
one, so the dispatch at line 336 raises `AttributeError` for every
request built from a default-constructed specification, whatever the
underlying page does. -/
theorem check_absence_attribute_missing_bug :
    ∀ (title : String) (presPred absPred : Nat → Bool),
      browse_to_url (BrowseReq.init "http://example.com" none none)
        (Except.ok ()) title presPred absPred =
      { retval := Except.error (PyErr.attributeError "check_absence"),
        restarted := false, logs := [] } := by
  intro title presPred absPred
  rfl

/-- C8: when the navigate-to-URL call fails at the transport level
(`WebDriverException`), `browse_to_url` restarts the underlying browser
session and returns `False` without raising: the returned value is the
normal boolean, not a propagated exception. -/
theorem transport_failure_restarts_returns_false
    (req : BrowseReq) (title : String) (presPred absPred : Nat → Bool)
    (m : String) :
    browse_to_url req (Except.error (NavExc.webDriver m)) title
      presPred absPred =
    { retval := Except.ok false, restarted := true,
      logs := [LogEvent.out m] } := by
  rfl

/-- Modelled from the spec: `Arrays.equal_length(props, values,
raise_error=True)` lives in the `utils` submodule, which is not under
src/.  Per the spec, the descriptor list and the parallel key list
"must be equal length or the call fails with ArityMismatch". -/
def equal_length (a : List GetElementProps) (b : List String) :
    Except PyErr Unit :=
  if a.length = b.length then Except.ok ()
  else Except.error PyErr.arityMismatch

/-- Python dict insertion `lookup[key] = v` over an insertion-ordered
association list: replace in place when the key exists, append
otherwise. -/
def dict_insert (d : List (String × WebLookup)) (k : String)
    (v : WebLookup) : List (String × WebLookup) :=
  if d.any (fun kv => decide (kv.1 = k)) then
    d.map (fun kv => if kv.1 = k then (k, v) else kv)
  else d ++ [(k, v)]

/-- `SeleniumBrowser.create_element_lookup`
(src/Selenium_Browser/SeleniumBrowser.py, lines 434-438): default the
dict to `{}`, store the retrieval result under `key`, return the
dict. -/
def create_element_lookup (key : String) (p : GetElementProps)
    (lookup : Option (List (String × WebLookup))) (root : Option Elem)
    (run : Driver) : Except PyErr (List (String × WebLookup)) := do
  let l := lookup.getD []
  let r ← get_html_elements p root run
  Except.ok (dict_insert l key r)

/-- The index loop of `create_batch_element_lookup` (lines 444-445),
with the parallel lists zipped (the arity check has already ensured
equal lengths). -/
def batch_loop (pairs : List (String × GetElementProps))
    (lookup : List (String × WebLookup)) (root : Option Elem)
    (run : Driver) : Except PyErr (List (String × WebLookup)) :=
  match pairs with
  | [] => Except.ok lookup
  | (v, p) :: rest => do
    let l ← create_element_lookup v p (some lookup) root run
    batch_loop rest l root run

/-- `SeleniumBrowser.create_batch_element_lookup` (lines 440-446):
check the arity first, then process each (key, descriptor) pair in
input order against an initially empty dict. -/
def create_batch_element_lookup (values : List String)
    (props : List GetElementProps) (root : Option Elem) (run : Driver) :
    Except PyErr (List (String × WebLookup)) := do
  let _ ← equal_length props values
  batch_loop (values.zip props) [] root run

/-- Inserting under a key that is fresh for the dict appends. -/
theorem dict_insert_fresh (d : List (String × WebLookup)) (k : String)
    (v : WebLookup) (h : ∀ kv ∈ d, kv.1 ≠ k) :
    dict_insert d k v = d ++ [(k, v)] := by
  have : d.any (fun kv => decide (kv.1 = k)) = false := by
    simp only [List.any_eq_false, decide_eq_true_eq]
    exact h
  simp [dict_insert, this]

/-- The batch loop over pairwise-fresh keys with succeeding retrievals
appends the results in input order. -/
theorem batch_loop_ordered (root : Option Elem) (run : Driver) :
    ∀ (values : List String) (props : List GetElementProps)
      (rs : List WebLookup) (acc : List (String × WebLookup)),
      values.Nodup →
      (∀ v ∈ values, ∀ kv ∈ acc, kv.1 ≠ v) →
      List.Forall₂ (fun p r => get_html_elements p root run = Except.ok r)
        props rs →
      values.length = props.length →
      batch_loop (values.zip props) acc root run =
        Except.ok (acc ++ values.zip rs) := by
  intro values
  induction values with
  | nil =>
    intro props rs acc _ _ hf hlen
    cases hf with
    | nil => simp [batch_loop]
    | cons _ _ => simp at hlen
  | cons v vs ih =>
    intro props rs acc hnd hfresh hf hlen
    cases hf with
    | nil => simp at hlen
    | @cons p r ps rrs hpr hrest =>
      have hvfresh : ∀ kv ∈ acc, kv.1 ≠ v := fun kv hkv =>
        hfresh v (List.mem_cons_self v vs) kv hkv
      have hstep : create_element_lookup v p (some acc) root run =
          Except.ok (acc ++ [(v, r)]) := by
        unfold create_element_lookup
        rw [hpr]
        show Except.ok (dict_insert acc v r) = _
        rw [dict_insert_fresh acc v r hvfresh]
      have hnd' : vs.Nodup := (List.nodup_cons.mp hnd).2
      have hvnotin : v ∉ vs := (List.nodup_cons.mp hnd).1
      have hfresh' : ∀ v' ∈ vs, ∀ kv ∈ acc ++ [(v, r)], kv.1 ≠ v' := by
        intro v' hv' kv hkv
        rcases List.mem_append.mp hkv with hkv | hkv
        · exact hfresh v' (List.mem_cons_of_mem v hv') kv hkv
        · have hkvr : kv = (v, r) := List.mem_singleton.mp hkv
          subst hkvr
          intro hc
          have hc' : v = v' := hc
          exact hvnotin (by rw [hc']; exact hv')
      have hlen' : vs.length = ps.length := by
        simpa using hlen
      have hrec := ih ps rrs (acc ++ [(v, r)]) hnd' hfresh' hrest hlen'
      calc batch_loop ((v :: vs).zip (p :: ps)) acc root run
          = batch_loop (vs.zip ps) (acc ++ [(v, r)]) root run := by
            show (do
                let l ← create_element_lookup v p (some acc) root run
                batch_loop (vs.zip ps) l root run) =
              batch_loop (vs.zip ps) (acc ++ [(v, r)]) root run
            rw [hstep]
            rfl
        _ = Except.ok (acc ++ [(v, r)] ++ vs.zip rrs) := hrec
        _ = Except.ok (acc ++ (v :: vs).zip (r :: rrs)) := by
            simp

/-- C9: a batch retrieval whose key list and descriptor list have
different lengths fails with the arity error no matter what the driver
would answer — the failure precedes any lookup, so the outcome is
independent of the driver; with equal lengths (and distinct keys and
succeeding per-descriptor retrievals) each descriptor is processed in
input order, producing the key-result pairs in exactly the input
order. -/
theorem batch_arity_check_and_order (values : List String)
    (props : List GetElementProps) (root : Option Elem) (run : Driver) :
    (values.length ≠ props.length →
      create_batch_element_lookup values props root run =
        Except.error PyErr.arityMismatch) ∧
    (∀ rs : List WebLookup, values.length = props.length →
      values.Nodup →
      List.Forall₂ (fun p r => get_html_elements p root run = Except.ok r)
        props rs →
      create_batch_element_lookup values props root run =
        Except.ok (values.zip rs)) := by
  constructor
  · intro hne
    have herr : equal_length props values = Except.error PyErr.arityMismatch := by
      unfold equal_length
      rw [if_neg]
      intro hc
      exact hne hc.symm
    unfold create_batch_element_lookup
    rw [herr]
    rfl
  · intro rs hlen hnd hf
    have heq : equal_length props values = Except.ok () := by
      unfold equal_length
      rw [if_pos hlen.symm]
    have hloop := batch_loop_ordered root run values props rs []
      hnd (by intro v _ kv hkv; simp at hkv) hf hlen
    unfold create_batch_element_lookup
    rw [heq]
    simpa using hloop

/-- A by-id descriptor keyed "a" in the batch example. -/
def batchPropsA : GetElementProps :=
  { GetElementProps.defaults with by_id := some "x" }

/-- A by-tag descriptor with `force_list` set, keyed "b" in the batch
example. -/
def batchPropsB : GetElementProps :=
  { GetElementProps.defaults with by_tag := some "d", force_list := true }

/-- A driver reporting two matches for the id strategy and one match
otherwise. -/
def batchDriver : Driver := fun _ k _ =>
  match k with
  | By.id => Except.ok [⟨"t1", []⟩, ⟨"t2", []⟩]
  | _ => Except.ok [⟨"t2", []⟩]

/-- C9 witness: a 1-vs-0 batch fails with the arity error under any
driver, and an equal-length batch over two distinct keys yields the two
results in input order. -/
theorem batch_arity_check_and_order_witness :
    create_batch_element_lookup ["a"] [] none emptyPageDriver =
      Except.error PyErr.arityMismatch ∧
    create_batch_element_lookup ["a", "b"] [batchPropsA, batchPropsB]
      none batchDriver =
      Except.ok
        [("a", WebLookup.listV [Item.handle ⟨"t1", []⟩,
            Item.handle ⟨"t2", []⟩]),
         ("b", WebLookup.listV [Item.handle ⟨"t2", []⟩])] := by
  constructor
  · exact (batch_arity_check_and_order ["a"] [] none emptyPageDriver).1
      (by decide)
  · exact (batch_arity_check_and_order ["a", "b"]
      [batchPropsA, batchPropsB] none batchDriver).2
      [WebLookup.listV [Item.handle ⟨"t1", []⟩, Item.handle ⟨"t2", []⟩],
       WebLookup.listV [Item.handle ⟨"t2", []⟩]]
      rfl (by decide)
      (List.Forall₂.cons rfl (List.Forall₂.cons rfl List.Forall₂.nil))

/-- `SeleniumBrowser._check_results`
(src/Selenium_Browser/SeleniumBrowser.py, lines 555-562): the
short-circuiting OR over a list of lookup statements.  Each statement is
modelled by the boolean it would return; the second component counts
how many statements the loop actually evaluated (the loop body invokes
each statement until the first truthy one, then breaks). -/
def check_results : List Bool → Bool × Nat
  | [] => (false, 0)
  | b :: rest =>
    if b then (true, 1)
    else
      let r := check_results rest
      (r.1, r.2 + 1)

/-- `SeleniumBrowser._check_all_results` (lines 564-571): the
short-circuiting AND, breaking at the first falsy statement. -/
def check_all_results : List Bool → Bool × Nat
  | [] => (true, 0)
  | b :: rest =>
    if b then
      let r := check_all_results rest
      (r.1, r.2 + 1)
    else (false, 1)

/-- C10: the composite evaluators treat the empty statement list as the
identity of their operation: the any-of evaluator returns `False` on the
empty list and the all-of evaluator returns `True`, and in both cases
the number of evaluated statements is zero — no predicate is invoked. -/
theorem empty_composite_predicate_identities :
    check_results [] = (false, 0) ∧ check_all_results [] = (true, 0) := by
  exact ⟨rfl, rfl⟩
